import Mathlib

/-
Verification of the YouTube API client and search orchestration layer of the
reactnativevid repository: a shallow embedding of the current revision of
src/api/youtubeApi.ts (the variant with connectivity gating, request timeouts
and module-level API-key caching) and of src/screens/SearchScreen.tsx (the
variant with debounced search, sort options and display-count windowing).

Asynchronous effects are made explicit: the outcome of an HTTP fetch is an
input to each embedded function, the request it would issue and the warning it
would log are outputs, and the module-level mutable key cache is threaded as
explicit state.
-/

/-! ## Data model (response shapes from the YouTube Data API) -/

structure Snippet where
  title : String
  description : String
  channelTitle : String
deriving DecidableEq, Repr

structure VideoId where
  videoId : String
deriving DecidableEq, Repr

/-- A search-result item: items of the /search endpoint response. -/
structure YouTubeVideo where
  id : VideoId
  snippet : Snippet
deriving DecidableEq, Repr

structure Statistics where
  viewCount : Option String
  likeCount : Option String
deriving DecidableEq, Repr

/-- An item of the /videos endpoint response (statistics is optional). -/
structure VideoItem where
  id : String
  snippet : Snippet
  statistics : Option Statistics
deriving DecidableEq, Repr

/-- The record getVideoDetails returns on success. -/
structure VideoDetail where
  id : String
  title : String
  description : String
  channelTitle : String
  viewCount : Option String
  likeCount : Option String
deriving DecidableEq, Repr

/-! ## Axios-style errors and fetch outcomes -/

structure HttpResponse where
  status : Nat
deriving DecidableEq, Repr

/-- The shape of the error value observed in a catch block: an axios error
carries an optional code, a message, and an optional HTTP response. -/
structure ApiError where
  code : Option String
  message : String
  response : Option HttpResponse
deriving DecidableEq, Repr

/-- A plain JavaScript Error thrown inside the try block itself:
it has no axios code and no HTTP response, only a message. -/
def plainError (m : String) : ApiError :=
  { code := none, message := m, response := none }

/-- The outcome of an awaited axios call: a parsed payload or a thrown error. -/
inductive FetchOutcome (α : Type) where
  | success (data : α)
  | failure (e : ApiError)
deriving DecidableEq, Repr

/-- The status of the optional response, as optional chaining reads it. -/
def responseStatus (e : ApiError) : Option Nat :=
  e.response.map HttpResponse.status

/-! ## String containment (the String.prototype.includes test) -/

/-- Does the character list s contain pat as a contiguous sublist? -/
def containsSub (pat : List Char) : List Char → Bool
  | [] => pat.isEmpty
  | c :: tail => pat.isPrefixOf (c :: tail) || containsSub pat tail

/-- The message.includes(pat) test used by the detail error handler. -/
def containsSubstr (s pat : String) : Bool :=
  containsSub pat.data s.data

/-! ## NetworkReachabilityProbe: checkInternetConnection -/

/-- The NetInfo state: both flags are nullable on real devices. -/
structure NetInfoState where
  isConnected : Option Bool
  isInternetReachable : Option Bool
deriving DecidableEq, Repr

/-- checkInternetConnection (youtubeApi.ts): returns true only when both
isConnected and isInternetReachable are strictly equal to true; a throwing
probe is caught and yields false. -/
def checkInternetConnection (probe : Except String NetInfoState) : Bool :=
  match probe with
  | Except.ok s => decide (s.isConnected = some true ∧ s.isInternetReachable = some true)
  | Except.error _ => false

/-! ## API key lookup: getApiKey with the module-level cache -/

def missingKeyMessage : String :=
  "YOUTUBE_API_KEY environment variable is not set. Please create a .env file with YOUTUBE_API_KEY=your_key"

/-- getApiKey (youtubeApi.ts): the module-level variable cachedApiKey is
threaded as explicit state; the call returns the key together with the new
cache contents. A cached key is returned without consulting configuration;
otherwise the key is read from configuration (a missing or empty value is
falsy and raises) and stored in the cache. -/
def getApiKey (cachedApiKey : Option String) (config : Option String) :
    Except String (String × Option String) :=
  match cachedApiKey with
  | some k => Except.ok (k, some k)
  | none =>
    match config with
    | none => Except.error missingKeyMessage
    | some k =>
      if k = "" then Except.error missingKeyMessage
      else Except.ok (k, some k)

/-! ## VideoCatalogClient: searchVideos, getPopularVideos, getVideoDetails -/

/-- The remote sort orders accepted by the /search endpoint. -/
inductive SortOrder where
  | date
  | rating
  | relevance
  | title
  | viewCount
deriving DecidableEq, Repr

/-- The query parameters of a GET to the /search endpoint. -/
structure SearchRequest where
  part : String
  q : String
  type : String
  maxResults : Nat
  order : SortOrder
  key : String
deriving DecidableEq, Repr

/-- The catch handler shared by searchVideos and getPopularVideos: every
branch returns an empty list together with the message it logs; nothing is
rethrown. The final branch logs finalLog (console.error). -/
def listCatch (finalLog : String) (e : ApiError) : List YouTubeVideo × String :=
  if e.code = some "NETWORK_ERROR" ∨ e.message = "Network Error" ∨ e.response = none then
    ([], "Network error: No internet connection or request timeout")
  else if responseStatus e = some 403 then
    ([], "YouTube API 403 Forbidden Error")
  else if responseStatus e = some 400 then
    ([], "YouTube API 400 Bad Request")
  else if responseStatus e = some 429 then
    ([], "YouTube API 429 Too Many Requests: Rate limit exceeded")
  else if (responseStatus e).any (fun s => decide (500 ≤ s)) then
    ([], "YouTube API Server Error")
  else
    ([], finalLog)

/-- What one call to a list-producing operation does: its returned or thrown
result, the HTTP request it issued (none when no network call was made), and
the warning it logged. -/
structure ListCallResult where
  result : Except String (List YouTubeVideo)
  request : Option SearchRequest
  warning : Option String
deriving Repr

/-- searchVideos (youtubeApi.ts): gated on the connectivity probe; the query
parameter is query or the default string when query is falsy (empty); the
items field of the payload may be absent; every caught error becomes an empty
list. conn is the probe result and outcome the awaited axios result. -/
def searchVideos (conn : Bool) (query : String) (maxResults : Nat)
    (order : SortOrder) (key : String)
    (outcome : FetchOutcome (Option (List YouTubeVideo))) : ListCallResult :=
  if conn = false then
    { result := Except.ok [],
      request := none,
      warning := some "No internet connection. Cannot fetch videos." }
  else
    let req : SearchRequest :=
      { part := "snippet",
        q := if query = "" then "programming tutorial" else query,
        type := "video",
        maxResults := maxResults,
        order := order,
        key := key }
    match outcome with
    | FetchOutcome.success items =>
      { result := Except.ok (items.getD []), request := some req, warning := none }
    | FetchOutcome.failure e =>
      { result := Except.ok (listCatch "Error fetching videos" e).1,
        request := some req,
        warning := some (listCatch "Error fetching videos" e).2 }

/-- getPopularVideos (youtubeApi.ts): same gate and catch policy as
searchVideos, with the fixed query and the viewCount order. -/
def getPopularVideos (conn : Bool) (maxResults : Nat) (key : String)
    (outcome : FetchOutcome (Option (List YouTubeVideo))) : ListCallResult :=
  if conn = false then
    { result := Except.ok [],
      request := none,
      warning := some "No internet connection. Cannot fetch popular videos." }
  else
    let req : SearchRequest :=
      { part := "snippet",
        q := "programming tutorial",
        type := "video",
        maxResults := maxResults,
        order := SortOrder.viewCount,
        key := key }
    match outcome with
    | FetchOutcome.success items =>
      { result := Except.ok (items.getD []), request := some req, warning := none }
    | FetchOutcome.failure e =>
      { result := Except.ok (listCatch "Error fetching popular videos" e).1,
        request := some req,
        warning := some (listCatch "Error fetching popular videos" e).2 }

/-- The catch handler of getVideoDetails: maps the caught error to the message
of the Error it rethrows, branch for branch. -/
def detailCatchMessage (e : ApiError) : String :=
  if e.code = some "NETWORK_ERROR" ∨ e.message = "Network Error" ∨ e.response = none then
    if containsSubstr e.message "No internet connection" = true then
      e.message
    else
      "No internet connection. Cannot load video details."
  else if responseStatus e = some 403 then
    "Unable to load video details. Please check your API configuration."
  else if responseStatus e = some 404 then
    "Video not found"
  else if (responseStatus e).any (fun s => decide (500 ≤ s)) then
    "Server error. Please try again later."
  else
    "Failed to load video details. Please try again."

/-- getVideoDetails (youtubeApi.ts): the try block throws a plain Error when
the connectivity gate fails or when the payload has no items, and otherwise
builds the detail record; every error reaching the catch handler is mapped to
a rethrown message by detailCatchMessage. -/
def getVideoDetails (conn : Bool) (outcome : Except ApiError (List VideoItem)) :
    Except String VideoDetail :=
  let tryResult : Except ApiError VideoDetail :=
    if conn = false then
      Except.error (plainError "No internet connection. Cannot load video details.")
    else
      match outcome with
      | Except.error e => Except.error e
      | Except.ok items =>
        match items.head? with
        | none => Except.error (plainError "Video not found")
        | some v =>
          Except.ok
            { id := v.id,
              title := v.snippet.title,
              description := v.snippet.description,
              channelTitle := v.snippet.channelTitle,
              viewCount := v.statistics.bind Statistics.viewCount,
              likeCount := v.statistics.bind Statistics.likeCount }
  match tryResult with
  | Except.ok d => Except.ok d
  | Except.error e => Except.error (detailCatchMessage e)

/-! ## Error kinds (spec section 7) -/

inductive ErrorKind where
  | NetworkUnavailable
  | ConfigurationError
  | NotFound
  | RateLimited
  | ServerError
  | BadRequest
  | Unknown
deriving DecidableEq, Repr

/-- Modelled from the spec: the error-kind classification of section 7,
read off the concrete message strings getVideoDetails throws. -/
def detailErrorKind (m : String) : ErrorKind :=
  if containsSubstr m "No internet connection" = true then ErrorKind.NetworkUnavailable
  else if m = "Video not found" then ErrorKind.NotFound
  else if m = "Unable to load video details. Please check your API configuration." then
    ErrorKind.ConfigurationError
  else if m = "Server error. Please try again later." then ErrorKind.ServerError
  else ErrorKind.Unknown

/-! ## SearchOrchestrator (SearchScreen.tsx) -/

/-- The sort options offered by the sort modal: date is latest upload,
dateDesc is oldest upload, viewCount is most popular. -/
inductive SortOption where
  | date
  | dateDesc
  | viewCount
deriving DecidableEq, Repr

/-- getSortOrder (SearchScreen.tsx): both date options map to the remote date
order; the switch has an unreachable default returning relevance, which the
three constructors of the closed union never hit. -/
def getSortOrder : SortOption → SortOrder
  | SortOption.date => SortOrder.date
  | SortOption.dateDesc => SortOrder.date
  | SortOption.viewCount => SortOrder.viewCount

/-- The local post-fetch step of performSearch: copy the results and reverse
them exactly when the selected option is dateDesc. -/
def sortResults (sort : SortOption) (results : List YouTubeVideo) : List YouTubeVideo :=
  if sort = SortOption.dateDesc then results.reverse else results

def INITIAL_DISPLAY_COUNT : Nat := 10

def LOAD_MORE_COUNT : Nat := 10

/-- The display-slice effect: displayedVideos is allVideos.slice(0, displayCount). -/
def displayedVideos (allVideos : List YouTubeVideo) (displayCount : Nat) : List YouTubeVideo :=
  allVideos.take displayCount

/-- The footer condition of the list: more results are available when the
displayed slice is shorter than the full result set. -/
def moreAvailable (allVideos : List YouTubeVideo) (displayCount : Nat) : Bool :=
  decide ((displayedVideos allVideos displayCount).length < allVideos.length)

/-- The screen state the claims are about: the full result set, the window
size, and the loading flag. -/
structure Session where
  allVideos : List YouTubeVideo
  displayCount : Nat
  loading : Bool
deriving DecidableEq, Repr

def displayedOf (s : Session) : List YouTubeVideo :=
  displayedVideos s.allVideos s.displayCount

def moreAvailableOf (s : Session) : Bool :=
  moreAvailable s.allVideos s.displayCount

/-- handleShowMore (SearchScreen.tsx): purely increments displayCount; it
touches no other state and issues no request. -/
def handleShowMore (s : Session) : Session :=
  { s with displayCount := s.displayCount + LOAD_MORE_COUNT }

/-- The state performSearch and loadPopularVideos install when a fetch
resolves: the sorted results replace the full set, the window resets to the
initial size, and loading ends. -/
def sessionAfterFetch (all : List YouTubeVideo) : Session :=
  { allVideos := all, displayCount := INITIAL_DISPLAY_COUNT, loading := false }

/-! ## Fetch interleaving (stale responses) -/

/-- The observable steps of overlapping performSearch calls: a fetch is issued
(carrying a generation number for bookkeeping only) or a fetch resolves with
its raw results and the sort option captured by its closure. -/
inductive FetchEvent where
  | issue (gen : Nat) (query : String)
  | complete (gen : Nat) (results : List YouTubeVideo) (sort : SortOption)
deriving DecidableEq, Repr

/-- How the screen state reacts to one event: issuing sets the loading flag;
a resolving fetch unconditionally installs its results — performSearch
compares no generation counter, so the handler is the same for a current and
a superseded fetch. -/
def applyFetchEvent (s : Session) : FetchEvent → Session
  | FetchEvent.issue _ _ => { s with loading := true }
  | FetchEvent.complete _ results sort =>
    { allVideos := sortResults sort results,
      displayCount := INITIAL_DISPLAY_COUNT,
      loading := false }

def runFetchEvents (s : Session) (es : List FetchEvent) : Session :=
  es.foldl applyFetchEvent s

/-! ## Debounce (handleQueryChange) -/

def debounceWindow : Nat := 500

/-- A keystroke trace (time in milliseconds, text-field value at that time),
in ascending time order, where every keystroke arrives before the previous
debounce timer fires. -/
def gapsBelow : List (Nat × String) → Bool
  | (t1, _) :: (t2, q2) :: rest =>
    decide (t2 < t1 + debounceWindow) && gapsBelow ((t2, q2) :: rest)
  | _ => true

def lastKeystroke (p : Nat × String) : List (Nat × String) → Nat × String
  | [] => p
  | p2 :: rest => lastKeystroke p2 rest

/-- handleQueryChange (SearchScreen.tsx) over a keystroke trace in ascending
time order: each keystroke clears the pending timer and arms a new one for
debounceWindow later; a timer fires only if no further keystroke arrives
strictly before its deadline. Returns the fires as (time, captured value). -/
def debounceFires : List (Nat × String) → List (Nat × String)
  | [] => []
  | (t, q) :: rest =>
    match rest with
    | [] => [(t + debounceWindow, q)]
    | (t2, _) :: _ =>
      if t2 < t + debounceWindow then debounceFires rest
      else (t + debounceWindow, q) :: debounceFires rest

/-! ## Concrete fixtures -/

def mkVideo (s : String) : YouTubeVideo :=
  { id := { videoId := s }, snippet := { title := s, description := "", channelTitle := s } }

def testVideos : List YouTubeVideo :=
  (List.range 37).map (fun n => mkVideo (toString n))

/-- A concrete axios error for an HTTP 429 response. -/
def err429 : ApiError :=
  { code := none,
    message := "Request failed with status code 429",
    response := some { status := 429 } }

/-- A concrete axios error for an HTTP 404 response. -/
def err404 : ApiError :=
  { code := some "ERR_BAD_REQUEST",
    message := "Request failed with status code 404",
    response := some { status := 404 } }

/-! ## Helper lemmas -/

/-- Every branch of the shared list catch handler returns the empty list. -/
theorem listCatch_fst (finalLog : String) (e : ApiError) : (listCatch finalLog e).1 = [] := by
  unfold listCatch
  split_ifs <;> rfl

/-- A fetch error makes getVideoDetails rethrow the message the catch
handler computes. -/
theorem getVideoDetails_error_eq (e : ApiError) :
    getVideoDetails true (Except.error e) = Except.error (detailCatchMessage e) := rfl

/-! ## Claim theorems -/

/-- C1 counterexample: with connectivity up, searchVideos on the empty query
does issue a network request, and that request carries the substituted
default query term: the operation does not return early on empty input. -/
theorem searchVideos_empty_query_issues_default_request_cex :
    (searchVideos true "" 10 SortOrder.relevance "apikey" (FetchOutcome.success (some []))).request
      = some { part := "snippet", q := "programming tutorial", type := "video",
               maxResults := 10, order := SortOrder.relevance, key := "apikey" }
    ∧ (searchVideos true "" 10 SortOrder.relevance "apikey"
        (FetchOutcome.success (some []))).request ≠ none :=
  ⟨rfl, Option.some_ne_none _⟩

/-- C1 (amended): searchVideos never short-circuits on the query. Whenever
the connectivity gate passes it issues the request, substituting the default
term for the empty query and sending whitespace-only queries unchanged. -/
theorem searchVideos_query_substitution (mr : Nat) (o : SortOrder) (k : String)
    (outcome : FetchOutcome (Option (List YouTubeVideo))) :
    (searchVideos true "" mr o k outcome).request ≠ none
    ∧ Option.map SearchRequest.q (searchVideos true "" mr o k outcome).request
        = some "programming tutorial"
    ∧ Option.map SearchRequest.q (searchVideos true "   " mr o k outcome).request
        = some "   " := by
  cases outcome <;> exact ⟨Option.some_ne_none _, rfl, rfl⟩

/-- C2 counterexample: an unknown (null) secondary reachability signal makes
checkInternetConnection return false even though the primary flag is true,
and a throwing probe also yields false: the probe neither treats the unknown
signal as non-blocking nor fails open. -/
theorem checkInternetConnection_null_secondary_cex :
    checkInternetConnection
      (Except.ok { isConnected := some true, isInternetReachable := none }) = false
    ∧ checkInternetConnection (Except.error "probe threw") = false :=
  ⟨rfl, rfl⟩

/-- C2 (amended): checkInternetConnection returns true exactly when the probe
succeeds and both flags are explicitly true; a false primary flag forces a
false result whatever the secondary signal is, and a throwing probe yields
false (fail closed). -/
theorem checkInternetConnection_characterization (p : Except String NetInfoState)
    (r : Option Bool) (e : String) :
    (checkInternetConnection p = true ↔
      ∃ s, p = Except.ok s ∧ s.isConnected = some true ∧ s.isInternetReachable = some true)
    ∧ checkInternetConnection
        (Except.ok { isConnected := some false, isInternetReachable := r }) = false
    ∧ checkInternetConnection (Except.error e) = false := by
  refine ⟨?_, rfl, rfl⟩
  cases p with
  | ok s => simp [checkInternetConnection]
  | error msg => simp [checkInternetConnection]

/-- C3 counterexample: a first call with configuration key1 fills the module
cache; a second call made after the configuration changed to key2 still
returns key1: the key is not read fresh on every call. -/
theorem getApiKey_stale_cache_cex :
    getApiKey none (some "key1") = Except.ok ("key1", some "key1")
    ∧ getApiKey (some "key1") (some "key2") = Except.ok ("key1", some "key1")
    ∧ ("key1" : String) ≠ "key2" :=
  ⟨rfl, rfl, by decide⟩

/-- C3 (amended): getApiKey caches the key in the module-level variable on
first successful read; once the cache is filled, every later call returns the
cached value without consulting the current configuration. With an empty
cache a missing configuration value raises the configuration error. -/
theorem getApiKey_cache_behavior (k : String) (config : Option String) :
    getApiKey (some k) config = Except.ok (k, some k)
    ∧ getApiKey none none = Except.error missingKeyMessage :=
  ⟨rfl, rfl⟩

/-- C4: for network-unreachable, timeout (no response), HTTP 400, 403, 429
and 5xx failures, both list-producing operations return the empty list in a
normal (non-raising) return and log a warning. -/
theorem list_operations_absorb_failures (query : String) (mr : Nat) (o : SortOrder)
    (k : String) (e : ApiError) (outcome : FetchOutcome (Option (List YouTubeVideo)))
    (_h : e.code = some "NETWORK_ERROR" ∨ e.message = "Network Error" ∨ e.response = none
      ∨ responseStatus e = some 400 ∨ responseStatus e = some 403
      ∨ responseStatus e = some 429
      ∨ (responseStatus e).any (fun s => decide (500 ≤ s)) = true) :
    ((searchVideos true query mr o k (FetchOutcome.failure e)).result = Except.ok []
      ∧ (searchVideos true query mr o k (FetchOutcome.failure e)).warning ≠ none)
    ∧ ((getPopularVideos true mr k (FetchOutcome.failure e)).result = Except.ok []
      ∧ (getPopularVideos true mr k (FetchOutcome.failure e)).warning ≠ none)
    ∧ ((searchVideos false query mr o k outcome).result = Except.ok []
      ∧ (searchVideos false query mr o k outcome).warning ≠ none)
    ∧ ((getPopularVideos false mr k outcome).result = Except.ok []
      ∧ (getPopularVideos false mr k outcome).warning ≠ none) := by
  refine ⟨⟨?_, ?_⟩, ⟨?_, ?_⟩, ⟨?_, ?_⟩, ⟨?_, ?_⟩⟩ <;>
    simp [searchVideos, getPopularVideos, listCatch_fst]

/-- C4 witness: a concrete HTTP 429 failure of searchVideos yields the empty
list. -/
theorem list_operations_absorb_failures_witness :
    (searchVideos true "cats" 50 SortOrder.viewCount "apikey"
      (FetchOutcome.failure err429)).result = Except.ok [] :=
  (list_operations_absorb_failures "cats" 50 SortOrder.viewCount "apikey"
    err429 (FetchOutcome.success none) (by decide)).1.1

/-- C5: getVideoDetails surfaces every failure as a raised, classified error:
a network-shaped error (axios NETWORK_ERROR code, Network Error message, or
no response, which also covers the timeout) maps to NetworkUnavailable, an
HTTP 403 response to ConfigurationError, 404 to NotFound, 5xx to ServerError
and any other response status to Unknown; no failure is absorbed into a
normal return. -/
theorem getVideoDetails_error_classification (e : ApiError) (r : HttpResponse)
    (outcome : Except ApiError (List VideoItem)) :
    ((e.code = some "NETWORK_ERROR" ∨ e.message = "Network Error" ∨ e.response = none) →
      ∃ m, getVideoDetails true (Except.error e) = Except.error m
        ∧ detailErrorKind m = ErrorKind.NetworkUnavailable)
    ∧ (e.response = some r → e.code ≠ some "NETWORK_ERROR" → e.message ≠ "Network Error" →
        ((r.status = 404 →
            getVideoDetails true (Except.error e) = Except.error "Video not found"
            ∧ detailErrorKind "Video not found" = ErrorKind.NotFound)
         ∧ (r.status = 403 →
            getVideoDetails true (Except.error e)
              = Except.error "Unable to load video details. Please check your API configuration."
            ∧ detailErrorKind "Unable to load video details. Please check your API configuration."
              = ErrorKind.ConfigurationError)
         ∧ (500 ≤ r.status →
            getVideoDetails true (Except.error e)
              = Except.error "Server error. Please try again later."
            ∧ detailErrorKind "Server error. Please try again later." = ErrorKind.ServerError)
         ∧ (r.status ≠ 404 → r.status ≠ 403 → r.status < 500 →
            getVideoDetails true (Except.error e)
              = Except.error "Failed to load video details. Please try again."
            ∧ detailErrorKind "Failed to load video details. Please try again."
              = ErrorKind.Unknown)))
    ∧ (∀ d, getVideoDetails true (Except.error e) ≠ Except.ok d)
    ∧ (∀ d conn, getVideoDetails false outcome ≠ Except.ok d
        ∧ getVideoDetails conn (Except.ok []) ≠ Except.ok d) := by
  refine ⟨?_, ?_, ?_, ?_⟩
  · intro h
    refine ⟨detailCatchMessage e, getVideoDetails_error_eq e, ?_⟩
    unfold detailCatchMessage
    rw [if_pos h]
    by_cases hc : containsSubstr e.message "No internet connection" = true
    · rw [if_pos hc]
      unfold detailErrorKind
      rw [if_pos hc]
    · rw [if_neg hc]
      rfl
  · intro hr hc hm
    have hshape : ¬(e.code = some "NETWORK_ERROR" ∨ e.message = "Network Error"
        ∨ e.response = none) := by
      simp [hc, hm, hr]
    have hst : responseStatus e = some r.status := by simp [responseStatus, hr]
    refine ⟨?_, ?_, ?_, ?_⟩
    · intro h404
      refine ⟨?_, rfl⟩
      rw [getVideoDetails_error_eq]
      unfold detailCatchMessage
      rw [if_neg hshape, hst, h404]
      simp
    · intro h403
      refine ⟨?_, rfl⟩
      rw [getVideoDetails_error_eq]
      unfold detailCatchMessage
      rw [if_neg hshape, hst, h403]
      simp
    · intro h500
      refine ⟨?_, rfl⟩
      rw [getVideoDetails_error_eq]
      unfold detailCatchMessage
      rw [if_neg hshape, hst]
      have h3 : r.status ≠ 403 := by omega
      have h4 : r.status ≠ 404 := by omega
      simp [h3, h4, Option.any, h500]
    · intro h4 h3 hlt
      refine ⟨?_, rfl⟩
      rw [getVideoDetails_error_eq]
      unfold detailCatchMessage
      rw [if_neg hshape, hst]
      have h5 : ¬(500 ≤ r.status) := by omega
      simp [h3, h4, Option.any, h5]
  · intro d
    rw [getVideoDetails_error_eq]
    simp
  · intro d conn
    constructor
    · cases outcome <;> simp [getVideoDetails]
    · cases conn <;> simp [getVideoDetails]

/-- C5 witness: a concrete HTTP 404 failure raises the not-found message. -/
theorem getVideoDetails_error_classification_witness :
    getVideoDetails true (Except.error err404) = Except.error "Video not found" := by
  have h := (getVideoDetails_error_classification err404 { status := 404 }
    (Except.ok [])).2.1 rfl (by decide) (by decide)
  exact (h.1 rfl).1

/-- C6: for the same raw fetched items, the sequence installed for the
oldest-upload option is the exact reverse of the one installed for the
latest-upload option; both options map to the remote date order, and the
most-popular option maps to the remote viewCount order with no local
reversal. -/
theorem oldestUpload_reverse_of_latestUpload (raw : List YouTubeVideo) :
    sortResults SortOption.dateDesc raw = (sortResults SortOption.date raw).reverse
    ∧ getSortOrder SortOption.dateDesc = SortOrder.date
    ∧ getSortOrder SortOption.date = SortOrder.date
    ∧ getSortOrder SortOption.viewCount = SortOrder.viewCount
    ∧ sortResults SortOption.date raw = raw
    ∧ sortResults SortOption.viewCount raw = raw := by
  refine ⟨?_, rfl, rfl, rfl, ?_, ?_⟩ <;> simp [sortResults]

/-- C7: the visible slice is always the prefix of the full result set of
length min displayCount length, more results are available exactly when
displayCount is below the full length, and a show-more step only adds the
fixed increment to displayCount; with 37 fetched items the windows are the
prefixes of length 10, 20, 30 and then the whole list, clamped without
error, after which no more results are available. -/
theorem search_windowing (all : List YouTubeVideo) (d : Nat) (s : Session) :
    displayedVideos all d = all.take (min d all.length)
    ∧ (moreAvailable all d = true ↔ d < all.length)
    ∧ (handleShowMore s).displayCount = s.displayCount + LOAD_MORE_COUNT
    ∧ (handleShowMore s).allVideos = s.allVideos
    ∧ (all.length = 37 →
        displayedOf (sessionAfterFetch all) = all.take 10
        ∧ displayedOf (handleShowMore (sessionAfterFetch all)) = all.take 20
        ∧ displayedOf (handleShowMore (handleShowMore (sessionAfterFetch all))) = all.take 30
        ∧ displayedOf (handleShowMore (handleShowMore (handleShowMore
            (sessionAfterFetch all)))) = all
        ∧ moreAvailableOf (handleShowMore (handleShowMore (handleShowMore
            (sessionAfterFetch all)))) = false
        ∧ moreAvailableOf (handleShowMore (handleShowMore (sessionAfterFetch all))) = true) := by
  refine ⟨?_, ?_, rfl, rfl, fun h37 => ⟨rfl, rfl, rfl, ?_, ?_, ?_⟩⟩
  · unfold displayedVideos
    rcases Nat.le_total d all.length with hle | hle
    · rw [Nat.min_eq_left hle]
    · rw [Nat.min_eq_right hle, List.take_of_length_le hle, List.take_length]
  · simp only [moreAvailable, displayedVideos, List.length_take, decide_eq_true_eq]
    omega
  · show displayedVideos all
      (INITIAL_DISPLAY_COUNT + LOAD_MORE_COUNT + LOAD_MORE_COUNT + LOAD_MORE_COUNT) = all
    unfold displayedVideos
    refine List.take_of_length_le ?_
    rw [h37]
    decide
  · simp only [moreAvailableOf, moreAvailable, displayedOf, handleShowMore, sessionAfterFetch,
      displayedVideos, List.length_take, decide_eq_false_iff_not,
      INITIAL_DISPLAY_COUNT, LOAD_MORE_COUNT]
    omega
  · simp only [moreAvailableOf, moreAvailable, displayedOf, handleShowMore, sessionAfterFetch,
      displayedVideos, List.length_take, decide_eq_true_eq,
      INITIAL_DISPLAY_COUNT, LOAD_MORE_COUNT]
    omega

/-- C7 witness: on a concrete 37-item result set, after three show-more steps
no more results are available. -/
theorem search_windowing_witness :
    moreAvailableOf (handleShowMore (handleShowMore (handleShowMore
      (sessionAfterFetch testVideos)))) = false := by
  have h := (search_windowing testVideos 0 (sessionAfterFetch testVideos)).2.2.2.2 (by rfl)
  exact h.2.2.2.2.1

/-- C8 counterexample: two overlapping fetches where the later-issued one
resolves first; the superseded first fetch resolves last and its results are
installed, overwriting the newer result set: stale responses are not
discarded. -/
theorem stale_response_overwrites_cex :
    (runFetchEvents (sessionAfterFetch [])
      [FetchEvent.issue 1 "first query", FetchEvent.issue 2 "second query",
       FetchEvent.complete 2 [mkVideo "newer"] SortOption.viewCount,
       FetchEvent.complete 1 [mkVideo "stale"] SortOption.viewCount]).allVideos
      = [mkVideo "stale"]
    ∧ [mkVideo "stale"] ≠ [mkVideo "newer"] :=
  ⟨rfl, by decide⟩

/-- C8 (amended): the fetch completion handler carries no request-generation
check: every completed fetch unconditionally installs its results and resets
the window, so the session always reflects the last-completed fetch, which
may belong to a superseded request. -/
theorem fetch_completion_unconditional (s : Session) (g : Nat)
    (results : List YouTubeVideo) (sort : SortOption) :
    (applyFetchEvent s (FetchEvent.complete g results sort)).allVideos = sortResults sort results
    ∧ (applyFetchEvent s (FetchEvent.complete g results sort)).displayCount
        = INITIAL_DISPLAY_COUNT
    ∧ runFetchEvents s [FetchEvent.complete g results sort]
        = sessionAfterFetch (sortResults sort results) :=
  ⟨rfl, rfl, rfl⟩

/-- C9: over any keystroke trace in which every keystroke arrives within the
debounce window of the previous one, exactly one fetch fires, one window
after the last keystroke and with the last keystroke's value: each keystroke
cancels the previously pending timer. -/
theorem debounce_last_keystroke_wins (t : Nat) (q : String) (ks : List (Nat × String))
    (h : gapsBelow ((t, q) :: ks) = true) :
    debounceFires ((t, q) :: ks)
      = [((lastKeystroke (t, q) ks).1 + debounceWindow, (lastKeystroke (t, q) ks).2)] := by
  induction ks generalizing t q with
  | nil => rfl
  | cons p rest ih =>
    obtain ⟨t2, q2⟩ := p
    have h2 : (decide (t2 < t + debounceWindow) && gapsBelow ((t2, q2) :: rest)) = true := h
    rw [Bool.and_eq_true] at h2
    obtain ⟨hlt, hgaps⟩ := h2
    rw [decide_eq_true_eq] at hlt
    have hstep : debounceFires ((t, q) :: (t2, q2) :: rest)
        = if t2 < t + debounceWindow then debounceFires ((t2, q2) :: rest)
          else (t + debounceWindow, q) :: debounceFires ((t2, q2) :: rest) := rfl
    rw [hstep, if_pos hlt, ih t2 q2 hgaps]
    rfl

/-- C9 witness: keystrokes at 0, 100 and 200 milliseconds produce exactly one
fire, at 700 milliseconds, with the value typed at 200 milliseconds. -/
theorem debounce_last_keystroke_wins_witness :
    debounceFires [(0, "r"), (100, "re"), (200, "rea")] = [(700, "rea")] := by
  have h := debounce_last_keystroke_wins 0 "r" [(100, "re"), (200, "rea")] (by decide)
  exact h.trans rfl

/-- C10: a successful HTTP call whose payload has an empty items list makes
the try block throw the video-not-found error, but that plain error has no
response field, so the catch handler's no-response branch rewrites it: the
caller observes the no-internet-connection message (NetworkUnavailable), not
the not-found message the code itself constructs and the HTTP 404 path
raises. -/
theorem getVideoDetails_empty_items_bug :
    getVideoDetails true (Except.ok [])
      = Except.error "No internet connection. Cannot load video details."
    ∧ ("No internet connection. Cannot load video details." : String) ≠ "Video not found"
    ∧ detailErrorKind "No internet connection. Cannot load video details."
        = ErrorKind.NetworkUnavailable
    ∧ detailErrorKind "Video not found" = ErrorKind.NotFound
    ∧ getVideoDetails true (Except.error err404) = Except.error "Video not found" :=
  ⟨rfl, by decide, rfl, rfl, rfl⟩
